import Mathlib

/-!
# VoxAnalytix front end: route table and side navigation

A shallow embedding of the route table (`routes.jsx`), the side navigation
renderer (`widgets/layout/sidenav.jsx`), the result page
(`pages/dashboard/result.jsx`) and the hard-coded navigation targets of
`widgets/layout/progress.jsx` and `pages/auth/sign-in.jsx`.

JSX trees are embedded as plain records holding the parts the properties
talk about; `a && b` follows JavaScript truthiness.
-/

namespace VoxAnalytix

/-! ## Data model -/

/-- React element written in JSX: the component it instantiates and the
`className` prop it is given, if any. -/
structure Element where
  component : String
  className : Option String
deriving DecidableEq, Repr

/-- Entry of a `pages` array of `routes.jsx`. The `icon` property is absent
(`none`) on some entries; when present it is a React element. -/
structure Page where
  icon : Option Element
  name : String
  path : String
  element : Element
deriving DecidableEq, Repr

/-- Entry of the `routes` array: `layout`, optional `title`, `pages`. -/
structure RouteGroup where
  layout : String
  title : Option String
  pages : List Page
deriving DecidableEq, Repr

/-- The `icon` constant of `routes.jsx`: props spread into every icon. -/
def icon : String := "w-5 h-5 text-inherit"

/-- JSX `<C {...icon} />`. -/
def iconOf (component : String) : Element := Element.mk component (some icon)

/-- JSX `<C />`. -/
def view (component : String) : Element := Element.mk component none

/-- The exported `routes` array of `routes.jsx`. -/
def routes : List RouteGroup :=
  [ RouteGroup.mk "admin" none
      [ Page.mk (some (iconOf "HomeIcon")) "Dashboard Home" "/home" (view "AdminHome") ],
    RouteGroup.mk "dashboard" none
      [ Page.mk (some (iconOf "HomeIcon")) "Dashboard Home" "/home" (view "Home"),
        Page.mk (some (iconOf "DocumentArrowUpIcon")) "Upload Audio" "/upload-audio"
          (view "UploadAudio"),
        Page.mk (some (iconOf "TableCellsIcon")) "Call History" "/call-history"
          (view "CallHistory"),
        Page.mk (some (iconOf "QuestionMarkCircleIcon")) "Help & Support" "/help-and-support"
          (view "HelpAndSupport"),
        Page.mk (some (iconOf "UserIcon")) "Account" "/account" (view "Account"),
        Page.mk (some (iconOf "ArrowRightOnRectangleIcon")) "Log Out" "/auth/sign-in"
          (view "SignIn"),
        Page.mk none "ResulPage" "/result-page" (view "Result"),
        Page.mk none "ResulPastPage" "/result-past-page" (view "ResultPast") ],
    RouteGroup.mk "auth" none
      [ Page.mk none "Sign in" "/sign-in" (view "SignIn"),
        Page.mk none "sign up" "/sign-up" (view "SignUp") ] ]

/-! ## JavaScript truthiness of the destructured properties -/

/-- JavaScript `ToBoolean` of the `icon` bound by destructuring a page: a
React element is an object and so truthy, an absent property is `undefined`
and so falsy. -/
def iconTruthy : Option Element → Bool
  | some _ => true
  | none => false

/-- JavaScript `ToBoolean` of the `title` bound by destructuring a route
group: a string is truthy unless empty, an absent property is `undefined`. -/
def titleTruthy : Option String → Bool
  | some t => t != ""
  | none => false

/-! ## Shared UI controller -/

/-- The controller read by `Sidenav`:
`const { sidenavColor, sidenavType, openSidenav } = controller`. -/
structure Controller where
  sidenavColor : String
  sidenavType : String
  openSidenav : Bool
deriving DecidableEq, Repr

/-- Modelled from the spec: `setOpenSidenav` of `@/context`, whose module is
not among the sources. The visibility flag is a single shared boolean with
the operations set-true and set-false; the setter stores the value it is
given and leaves the rest of the controller alone. -/
def setOpenSidenav (controller : Controller) (value : Bool) : Controller :=
  Controller.mk controller.sidenavColor controller.sidenavType value

/-! ## Side navigation -/

/-- The `Button` rendered inside a `NavLink`. -/
structure Button where
  variant : String
  color : String
  icon : Option Element
  name : String
deriving DecidableEq, Repr

/-- JSX `<NavLink to=...>` with a render-prop child: the child is called
with the `isActive` flag that the routing layer supplies. The `to` prop is
the field `target`. -/
structure NavLink where
  target : String
  children : Bool → Button

/-- JSX `<li key={name}>`: holds a `NavLink`, or nothing when `icon && ...`
short-circuits. -/
structure Li where
  key : String
  child : Option NavLink

/-- JSX `<ul key={key}>`: the optional title row followed by one `li` per
page. -/
structure Ul where
  key : Nat
  title : Option String
  items : List Li

/-- The `aside` returned by `Sidenav`: the transform class chosen from
`openSidenav`, the click handler of the close `IconButton`, and the lists. -/
structure Aside where
  translate : String
  onCloseClick : Controller → Controller
  lists : List Ul

/-- The child function `({ isActive }) => <Button ...>` of lines 151-172. -/
def navButton (controller : Controller) (ic : Option Element) (name : String)
    (isActive : Bool) : Button :=
  Button.mk
    (if isActive then "gradient" else "text")
    (if isActive then controller.sidenavColor
     else if controller.sidenavType == "dark" then "white" else "blue-gray")
    ic name

/-- The body of `pages.map(({ icon, name, path }) => ...)`, lines 147-176. -/
def renderPage (controller : Controller) (layout : String) (p : Page) : Li :=
  Li.mk p.name
    (if iconTruthy p.icon then
       some (NavLink.mk ("/" ++ layout ++ p.path) (navButton controller p.icon p.name))
     else none)

/-- The body of `routes.map(({ layout, title, pages }, key) => ...)`,
lines 134-178. -/
def renderGroup (controller : Controller) (key : Nat) (g : RouteGroup) : Ul :=
  Ul.mk key
    (if titleTruthy g.title then g.title else none)
    (g.pages.map (renderPage controller g.layout))

/-- The loop `routes.map(..., key)`, with the running array index. -/
def renderGroups (controller : Controller) : Nat → List RouteGroup → List Ul
  | _, [] => []
  | key, g :: gs => renderGroup controller key g :: renderGroups controller (key + 1) gs

/-- The `Sidenav` component (`brandImg` and `brandName` are not used by its
body). -/
def Sidenav (controller : Controller) (routes : List RouteGroup) : Aside :=
  Aside.mk
    (if controller.openSidenav then "translate-x-0" else "-translate-x-80")
    (fun c => setOpenSidenav c false)
    (renderGroups controller 0 routes)

/-- Modelled from the spec: the `isActive` flag of `NavLink`, computed by the
routing library, which is not among the sources. The row is active on exact
match of its address with the current address. -/
def NavLink.isActive (link : NavLink) (pathname : String) : Bool :=
  link.target == pathname

/-- The button a `NavLink` shows at the current address. -/
def NavLink.render (link : NavLink) (pathname : String) : Button :=
  link.children (link.isActive pathname)

/-- The clickable rows of a list, in order. -/
def Ul.links (ul : Ul) : List NavLink :=
  ul.items.filterMap (fun li => li.child)

/-- A row is marked active when its button takes the highlighted variant. -/
def Button.markedActive (b : Button) : Bool :=
  b.variant == "gradient"

/-- The fully qualified address of a page of a group. -/
def address (layout : String) (p : Page) : String :=
  "/" ++ layout ++ p.path

/-- The route groups handed to the navigation for one layout. -/
def groupOf (layout : String) (rs : List RouteGroup) : List RouteGroup :=
  rs.filter (fun g => g.layout == layout)

/-- All fully qualified addresses of a route table, group by group. -/
def addresses (rs : List RouteGroup) : List String :=
  rs.flatMap (fun g => g.pages.map (address g.layout))

/-! ## Result page -/

/-- JavaScript values that the routing layer may carry as location state. -/
inductive JSVal where
  | undefined : JSVal
  | null : JSVal
  | bool (b : Bool) : JSVal
  | num (n : Int) : JSVal
  | str (s : String) : JSVal
  | obj (props : List (String × JSVal)) : JSVal

/-- Errors thrown by the JavaScript runtime. -/
inductive JSError where
  | typeError : JSError
deriving DecidableEq, Repr

/-- The value an object built from a property list holds under a key: a key
written more than once keeps its last value, and a key never written is not
a property of the object. -/
def getOwn (key : String) : List (String × JSVal) → Option JSVal
  | [] => none
  | (k, v) :: rest =>
    match getOwn key rest with
    | some w => some w
    | none => if k = key then some v else none

/-- The property read `v.file` on a value that is neither `null` nor
`undefined`. Location state is plain data, so an object has the property only
as an own property; a primitive has none, its wrapper prototype carrying no
`file`, and the read yields `undefined`. -/
def JSVal.file : JSVal → JSVal
  | JSVal.obj props => (getOwn "file" props).getD JSVal.undefined
  | _ => JSVal.undefined

/-- The destructuring `const { file } = v`: throws a `TypeError` when `v` is
`null` or `undefined`, and reads the property otherwise. -/
def destructureFile : JSVal → Except JSError JSVal
  | JSVal.undefined => Except.error JSError.typeError
  | JSVal.null => Except.error JSError.typeError
  | v => Except.ok v.file

/-- The location object returned by `useLocation()`. -/
structure Location where
  pathname : String
  state : JSVal

/-- The tree returned by `Result`: the `file` prop handed to `AudioPlayer`
and the components mounted after it. -/
structure ResultView where
  audioPlayerFile : JSVal
  rest : List Element

/-- The `Result` component, given the location that `useLocation()` returns. -/
def Result (location : Location) : Except JSError ResultView :=
  match destructureFile location.state with
  | Except.error e => Except.error e
  | Except.ok file =>
    Except.ok (ResultView.mk file
      [view "TranscriptionBox", view "EmotionsDetected", view "ResultForm"])

/-! ## Hard-coded navigation targets -/

/-- The `handleCancel` handler of `Progress`, given the `navigate` function
obtained from `useNavigate()`. -/
def Progress.handleCancel {σ : Type} (navigate : String → σ) : σ :=
  navigate "/dashboard/upload-audio"

/-- The `to` prop of the `Link` in the footer of `SignIn`. -/
def SignIn.linkTo : String := "/auth/sign-up"

/-! ## Properties -/

/-- The lists of `li` rows of the groups, whatever the running key. -/
theorem renderGroups_items (c : Controller) (rs : List RouteGroup) (k : Nat) :
    (renderGroups c k rs).map (fun ul => ul.items) =
      rs.map (fun g => g.pages.map (renderPage c g.layout)) := by
  induction rs generalizing k with
  | nil => rfl
  | cons g gs ih => simp [renderGroups, renderGroup, ih]

/-- The clickable rows of one group are the rendered pages that have an icon. -/
theorem links_renderGroup (c : Controller) (k : Nat) (g : RouteGroup) :
    (renderGroup c k g).links =
      (g.pages.filter (fun p => p.icon.isSome)).map
        (fun p => NavLink.mk ("/" ++ g.layout ++ p.path) (navButton c p.icon p.name)) := by
  unfold renderGroup Ul.links
  simp only
  induction g.pages with
  | nil => rfl
  | cons p ps ih =>
    cases h : p.icon <;> simp [renderPage, iconTruthy, h, ih]

/-- The clickable rows of every group, whatever the running key. -/
theorem renderGroups_links (c : Controller) (rs : List RouteGroup) (k : Nat) :
    (renderGroups c k rs).map Ul.links =
      rs.map (fun g => (g.pages.filter (fun p => p.icon.isSome)).map
        (fun p => NavLink.mk ("/" ++ g.layout ++ p.path) (navButton c p.icon p.name))) := by
  induction rs generalizing k with
  | nil => rfl
  | cons g gs ih => simp [renderGroups, links_renderGroup, ih]

/-- C1: rendering the "dashboard" group of the exported route table yields
clickable rows for exactly Dashboard Home, Upload Audio, Call History,
Help & Support, Account, Log Out, in that order; the rows of ResulPage and
ResulPastPage hold no link. -/
theorem sidenav_dashboard_rows (c : Controller) (isActive : Bool) :
    (Sidenav c (groupOf "dashboard" routes)).lists.map
        (fun ul => ul.links.map (fun l => (l.children isActive).name)) =
      [["Dashboard Home", "Upload Audio", "Call History", "Help & Support",
        "Account", "Log Out"]] ∧
    (Sidenav c (groupOf "dashboard" routes)).lists.map
        (fun ul => ul.items.map (fun li => (li.key, li.child.isSome))) =
      [[("Dashboard Home", true), ("Upload Audio", true), ("Call History", true),
        ("Help & Support", true), ("Account", true), ("Log Out", true),
        ("ResulPage", false), ("ResulPastPage", false)]] := by
  constructor <;> rfl

/-- C2: for every list of route groups, `Sidenav` renders one `li` per entry,
and the `li` holds a `NavLink` if and only if the entry declares an icon; the
clickable rows of a group are, in the original order, exactly its entries that
have an icon, each shown with its own icon and name. -/
theorem sidenav_row_iff_icon (c : Controller) (rs : List RouteGroup) (isActive : Bool) :
    (Sidenav c rs).lists.map
        (fun ul => ul.items.map (fun li => (li.key, li.child.isSome))) =
      rs.map (fun g => g.pages.map (fun p => (p.name, p.icon.isSome))) ∧
    (Sidenav c rs).lists.map
        (fun ul => ul.links.map
          (fun l => ((l.children isActive).icon, (l.children isActive).name))) =
      rs.map (fun g => (g.pages.filter (fun p => p.icon.isSome)).map
        (fun p => (p.icon, p.name))) := by
  constructor
  · have h := congrArg
      (List.map (List.map (fun li : Li => (li.key, li.child.isSome))))
      (renderGroups_items c rs 0)
    simp only [List.map_map] at h
    simp only [Sidenav]
    rw [show (fun ul : Ul => ul.items.map (fun li => (li.key, li.child.isSome))) =
        (List.map (fun li : Li => (li.key, li.child.isSome))) ∘ (fun ul => ul.items) from rfl]
    rw [h]
    apply List.map_congr_left
    intro g _
    simp only [Function.comp, List.map_map]
    apply List.map_congr_left
    intro p _
    cases hp : p.icon <;> simp [renderPage, iconTruthy, hp]
  · have h := congrArg
      (List.map (List.map
        (fun l : NavLink => ((l.children isActive).icon, (l.children isActive).name))))
      (renderGroups_links c rs 0)
    simp only [List.map_map] at h
    simp only [Sidenav]
    rw [show (fun ul : Ul => ul.links.map
          (fun l => ((l.children isActive).icon, (l.children isActive).name))) =
        (List.map (fun l : NavLink =>
          ((l.children isActive).icon, (l.children isActive).name))) ∘ Ul.links from rfl]
    rw [h]
    apply List.map_congr_left
    intro g _
    simp [Function.comp, navButton]

/-- C4: for every list of route groups, the address each rendered row requests
is "/" followed by the layout followed by the path fragment; for layout
"dashboard" and path "/home" it is "/dashboard/home". -/
theorem sidenav_row_target (c : Controller) (rs : List RouteGroup)
    (ic : Element) (name : String) (el : Element) :
    (Sidenav c rs).lists.map (fun ul => ul.links.map (fun l => l.target)) =
      rs.map (fun g => (g.pages.filter (fun p => p.icon.isSome)).map
        (fun p => "/" ++ g.layout ++ p.path)) ∧
    (renderPage c "dashboard" (Page.mk (some ic) name "/home" el)).child.map
        (fun l => l.target) = some "/dashboard/home" := by
  constructor
  · have h := congrArg (List.map (List.map (fun l : NavLink => l.target)))
      (renderGroups_links c rs 0)
    simp only [List.map_map] at h
    simp only [Sidenav]
    rw [show (fun ul : Ul => ul.links.map (fun l => l.target)) =
        (List.map (fun l : NavLink => l.target)) ∘ Ul.links from rfl]
    rw [h]
    apply List.map_congr_left
    intro g _
    simp [Function.comp]
  · rfl

/-- C5: at the current address "/dashboard/home", in the rendering of the
dashboard group of the exported route table, the Dashboard Home row is marked
active and the rows Upload Audio, Call History, Help & Support, Account and
Log Out are not. -/
theorem sidenav_dashboard_home_active (c : Controller) :
    (Sidenav c (groupOf "dashboard" routes)).lists.map
        (fun ul => ul.links.map
          (fun l => ((l.render "/dashboard/home").name,
                     (l.render "/dashboard/home").markedActive))) =
      [[("Dashboard Home", true), ("Upload Audio", false), ("Call History", false),
        ("Help & Support", false), ("Account", false), ("Log Out", false)]] := by
  rfl

/-- C3: in the exported route table the path fragments of the entries of
every route group are pairwise distinct. -/
theorem routes_paths_nodup :
    ∀ g ∈ routes, (g.pages.map (fun p => p.path)).Nodup := by
  decide

/-- Instance of the path uniqueness at the auth group of the exported table. -/
theorem routes_paths_nodup_witness :
    RouteGroup.mk "auth" none
        [ Page.mk none "Sign in" "/sign-in" (view "SignIn"),
          Page.mk none "sign up" "/sign-up" (view "SignUp") ] ∈ routes ∧
    ["/sign-in", "/sign-up"].Nodup :=
  ⟨by decide,
   routes_paths_nodup
     (RouteGroup.mk "auth" none
        [ Page.mk none "Sign in" "/sign-in" (view "SignIn"),
          Page.mk none "sign up" "/sign-up" (view "SignUp") ])
     (by decide)⟩

/-- C7: setting the visibility flag to `v` leaves it equal to `v` whatever
its prior value, setting it twice is the same as setting it once, and the
close icon of `Sidenav` sets it to false. -/
theorem setOpenSidenav_sets (s : Controller) (v : Bool) (c : Controller)
    (rs : List RouteGroup) :
    (setOpenSidenav s v).openSidenav = v ∧
    (setOpenSidenav s false).openSidenav = false ∧
    (setOpenSidenav s true).openSidenav = true ∧
    setOpenSidenav (setOpenSidenav s v) v = setOpenSidenav s v ∧
    (Sidenav c rs).onCloseClick s = setOpenSidenav s false ∧
    ((Sidenav c rs).onCloseClick s).openSidenav = false := by
  refine ⟨rfl, rfl, rfl, rfl, rfl, rfl⟩

/-- A key that no binding of a property list writes is not a property. -/
theorem getOwn_absent (key : String) (props : List (String × JSVal))
    (h : ∀ kv ∈ props, kv.1 ≠ key) : getOwn key props = none := by
  induction props with
  | nil => rfl
  | cons kv rest ih =>
    obtain ⟨k, v⟩ := kv
    have hk : k ≠ key := h (k, v) (List.mem_cons_self _ _)
    have hrest : getOwn key rest = none :=
      ih (fun kv hkv => h kv (List.mem_cons_of_mem _ hkv))
    simp [getOwn, hrest, hk]

/-- The last binding of a key in a property list is the value of the property. -/
theorem getOwn_last (key : String) (x : JSVal) (before after : List (String × JSVal))
    (h : ∀ kv ∈ after, kv.1 ≠ key) :
    getOwn key (before ++ (key, x) :: after) = some x := by
  induction before with
  | nil => simp [getOwn, getOwn_absent key after h]
  | cons kv rest ih =>
    obtain ⟨k, v⟩ := kv
    simp [getOwn, ih]

/-- C8: `Result` throws if and only if `location.state` is `null` or
`undefined`; otherwise it renders and the audio player receives exactly
`location.state.file`: the value last written under the key `file` when the
state is an object that has it, whatever its other properties, and
`undefined` when the state is an object without that key or a primitive. -/
theorem result_throws_iff_state_absent (location : Location) :
    ((∃ e, Result location = Except.error e) ↔
      (location.state = JSVal.undefined ∨ location.state = JSVal.null)) ∧
    (location.state ≠ JSVal.undefined → location.state ≠ JSVal.null →
      ∃ v, Result location = Except.ok v ∧ v.audioPlayerFile = location.state.file) ∧
    (∀ before x after, location.state = JSVal.obj (before ++ ("file", x) :: after) →
      (∀ kv ∈ after, kv.1 ≠ "file") →
      ∃ v, Result location = Except.ok v ∧ v.audioPlayerFile = x) ∧
    (∀ props, location.state = JSVal.obj props → (∀ kv ∈ props, kv.1 ≠ "file") →
      ∃ v, Result location = Except.ok v ∧ v.audioPlayerFile = JSVal.undefined) ∧
    ((∃ b, location.state = JSVal.bool b) ∨ (∃ n, location.state = JSVal.num n) ∨
        (∃ t, location.state = JSVal.str t) →
      ∃ v, Result location = Except.ok v ∧ v.audioPlayerFile = JSVal.undefined) := by
  obtain ⟨pathname, state⟩ := location
  refine ⟨?_, ?_, ?_, ?_, ?_⟩
  · cases state <;> simp [Result, destructureFile] <;> exact ⟨JSError.typeError, trivial⟩
  · cases state <;> simp [Result, destructureFile]
  · intro before x after hs hafter
    simp only at hs
    subst hs
    simp [Result, destructureFile, JSVal.file, getOwn_last "file" x before after hafter]
  · intro props hs hprops
    simp only at hs
    subst hs
    simp [Result, destructureFile, JSVal.file, getOwn_absent "file" props hprops]
  · rintro (⟨b, hs⟩ | ⟨n, hs⟩ | ⟨t, hs⟩) <;> simp only at hs <;> subst hs <;>
      simp [Result, destructureFile, JSVal.file]

/-- Instance of the result-page property at a location whose state writes
`file` twice among other properties, and at one carrying no state. -/
theorem result_throws_iff_state_absent_witness :
    (∃ v, Result (Location.mk "/dashboard/result-page"
        (JSVal.obj [("other", JSVal.str "WRONG"), ("file", JSVal.str "old.wav"),
          ("file", JSVal.str "call.wav"), ("size", JSVal.num 3)])) = Except.ok v ∧
      v.audioPlayerFile = JSVal.str "call.wav") ∧
    (∃ e, Result (Location.mk "/dashboard/result-page" JSVal.undefined) =
      Except.error e) := by
  constructor
  · exact (result_throws_iff_state_absent (Location.mk "/dashboard/result-page"
      (JSVal.obj [("other", JSVal.str "WRONG"), ("file", JSVal.str "old.wav"),
        ("file", JSVal.str "call.wav"), ("size", JSVal.num 3)]))).2.2.1
      [("other", JSVal.str "WRONG"), ("file", JSVal.str "old.wav")]
      (JSVal.str "call.wav") [("size", JSVal.num 3)] rfl
      (by
        intro kv hkv
        simp only [List.mem_singleton] at hkv
        subst hkv
        decide)
  · exact ((result_throws_iff_state_absent
      (Location.mk "/dashboard/result-page" JSVal.undefined)).1).2 (Or.inl rfl)

/-- C9: across the whole exported route table the fully qualified addresses
of all entries are pairwise distinct; the Log Out entry of the dashboard group
resolves to "/dashboard/auth/sign-in", which is not the address "/auth/sign-in"
of the Sign in entry of the auth group, and the "/home" entries of the admin
and dashboard groups resolve to different addresses. -/
theorem routes_addresses_nodup :
    (addresses routes).Nodup ∧
    (∃ g ∈ routes, ∃ p ∈ g.pages, g.layout = "dashboard" ∧ p.name = "Log Out" ∧
      address g.layout p = "/dashboard/auth/sign-in") ∧
    (∃ g ∈ routes, ∃ p ∈ g.pages, g.layout = "auth" ∧ p.name = "Sign in" ∧
      address g.layout p = "/auth/sign-in") ∧
    "/dashboard/auth/sign-in" ≠ "/auth/sign-in" ∧
    (∃ g ∈ routes, ∃ p ∈ g.pages, g.layout = "admin" ∧ p.path = "/home" ∧
      address g.layout p = "/admin/home") ∧
    (∃ g ∈ routes, ∃ p ∈ g.pages, g.layout = "dashboard" ∧ p.path = "/home" ∧
      address g.layout p = "/dashboard/home") ∧
    "/admin/home" ≠ "/dashboard/home" := by
  decide

/-- C10: the address requested by the Cancel handler of `Progress` is the
address of the Upload Audio entry of the dashboard group, and the target of
the sign-up link of `SignIn` is the address of the sign up entry of the auth
group, both in the exported route table. -/
theorem hardcoded_targets_in_routes :
    (∃ g ∈ routes, ∃ p ∈ g.pages, g.layout = "dashboard" ∧ p.name = "Upload Audio" ∧
      Progress.handleCancel id = address g.layout p) ∧
    Progress.handleCancel id = "/dashboard/upload-audio" ∧
    (∃ g ∈ routes, ∃ p ∈ g.pages, g.layout = "auth" ∧ p.name = "sign up" ∧
      SignIn.linkTo = address g.layout p) ∧
    SignIn.linkTo = "/auth/sign-up" := by
  decide

end VoxAnalytix
